import Mathlib

/-!
Verification development for `sql_on_excel.py`, a command-line tool that
stages CSV/XLSX data into file-backed SQLite databases, runs SQL against
them, and exports results to spreadsheets.

The Python program is shallowly embedded:
* Python string predicates (`str.isdigit`, `str.isalnum`, `str.lower`,
  `str.replace`, negative slices) become Lean functions on `String`/`Char`.
  Python's predicates are Unicode-aware; the embedding covers the Basic
  Latin and Latin-1 Supplement blocks (codepoints below 0x100) exactly,
  which is the domain all theorems below stay inside.
* The filesystem (the `Databases` storage folder, written spreadsheet
  files, text printed to stdout) becomes an explicit state record `St`
  threaded through each operation.
* Calls into pandas/sqlite whose outcome depends on data outside the
  program (file contents, SQL engine results) are oracles passed as
  arguments: the column list produced by a file read, the outcome of
  `pd.read_sql_query`, the lines of a `.txt` query file.
* Each `raise` site becomes an `Err` value; an operation returns
  `Except Err Unit × St`, the final state reflecting exactly the
  mutations performed before the raise.
-/

namespace SqlOnExcel

/-- ASCII decimal digit `0`-`9` (codepoints 0x30-0x39). -/
def asciiDigitChar (c : Char) : Bool :=
  0x30 ≤ c.toNat && c.toNat ≤ 0x39

/-- ASCII letter `A`-`Z` or `a`-`z`. -/
def asciiAlphaChar (c : Char) : Bool :=
  (0x41 ≤ c.toNat && c.toNat ≤ 0x5A) || (0x61 ≤ c.toNat && c.toNat ≤ 0x7A)

/-- Characters of the Latin-1 Supplement block (0xA0-0xFF) for which
Python's `str.isdigit` is true: the superscripts ¹ ² ³ (0xB9, 0xB2, 0xB3). -/
def latin1DigitExtra (c : Char) : Bool :=
  c.toNat = 0xB2 || c.toNat = 0xB3 || c.toNat = 0xB9

/-- Characters of the Latin-1 Supplement block for which Python's
`str.isalnum` is true: ª µ º (0xAA, 0xB5, 0xBA), the superscripts
¹ ² ³ (0xB9, 0xB2, 0xB3), the vulgar fractions ¼ ½ ¾ (0xBC, 0xBD, 0xBE),
and the letters À-ÿ (0xC0-0xFF) except × (0xD7) and ÷ (0xF7). -/
def latin1AlnumExtra (c : Char) : Bool :=
  c.toNat = 0xAA || c.toNat = 0xB5 || c.toNat = 0xBA ||
  c.toNat = 0xB2 || c.toNat = 0xB3 || c.toNat = 0xB9 ||
  c.toNat = 0xBC || c.toNat = 0xBD || c.toNat = 0xBE ||
  (0xC0 ≤ c.toNat && c.toNat ≤ 0xFF && c.toNat ≠ 0xD7 && c.toNat ≠ 0xF7)

/-- Python's per-character digit test, restricted to codepoints < 0x100
(exact on that block; `str.isdigit` counts the Unicode `Nd`/digit
characters, which below 0x100 are 0-9 and ¹ ² ³). -/
def pyIsDigitChar (c : Char) : Bool :=
  asciiDigitChar c || latin1DigitExtra c

/-- Python's per-character alphanumeric test, restricted to codepoints
< 0x100 (exact on that block). -/
def pyIsAlnumChar (c : Char) : Bool :=
  asciiAlphaChar c || asciiDigitChar c || latin1AlnumExtra c

/-- Python `s.isdigit()`: nonempty and every character a digit. -/
def pyIsDigit (s : String) : Bool :=
  !s.data.isEmpty && s.data.all pyIsDigitChar

/-- Python `s.isalnum()`: nonempty and every character alphanumeric. -/
def pyIsAlnum (s : String) : Bool :=
  !s.data.isEmpty && s.data.all pyIsAlnumChar

/-- Python `s.replace("_", "A")`. -/
def pyReplaceUnderscore (s : String) : String :=
  ⟨s.data.map (fun c => if c = '_' then 'A' else c)⟩

/-- Python `s.lower()` on the ASCII fragment (the program only lowercases
the literals `"Table"` and `"Column"`). -/
def pyLower (s : String) : String :=
  ⟨s.data.map Char.toLower⟩

/-- Python `s[-n:]`: the last `n` characters, or all of `s` when it is
shorter than `n`. Used for the `.csv` / `.xlsx` / `.txt` suffix tests. -/
def pyTailSlice (n : Nat) (s : String) : String :=
  ⟨s.data.drop (s.data.length - n)⟩

/-- The `raise` sites of `sql_on_excel.py`, labelled with the error kinds
of the specification. Message strings are carried where the spec speaks
about them. -/
inductive Err where
  /-- `Exception` with a "There is no database with the name …" message,
  and the uncaught `FileNotFoundError` from `open` on a missing query
  file. -/
  | notFound (msg : String)
  /-- `Exception` from `check_sqlite_entity_syntax`. -/
  | invalidIdentifier (msg : String)
  /-- `TypeError("Unsuported File extension. …")`. -/
  | unsupportedFormat
  /-- `TypeError("Cannot pass in a sheet name with a CSV file")`. -/
  | invalidArgumentCombination
  /-- `Exception("The given file holding the query is empty.")`. -/
  | emptyQuery
  /-- `Exception` raised when `pd.read_sql_query` fails. -/
  | queryError (msg : String)
  /-- `ValueError` from `DataFrame.to_sql(..., if_exists="fail")` when the
  table already exists. -/
  | tableExists
  /-- Uncaught `FileNotFoundError` (e.g. `os.listdir` on a missing
  `Databases` folder). -/
  | fileNotFound
  /-- Python `IndexError` from indexing an argument list that is too
  short. -/
  | indexError
  deriving DecidableEq, Repr

/-- `check_sqlite_entity_syntax(entity, type_)`: rejects an all-digit
identifier, then replaces `_` with `A` and rejects unless the result is
alphanumeric. -/
def check_sqlite_entity_syntax (entity type_ : String) : Except Err Unit :=
  if pyIsDigit entity then
    .error (.invalidIdentifier
      ("Invalid " ++ pyLower type_ ++ " " ++ entity ++ "." ++ " " ++ type_ ++
        " name cannot lead with a digit"))
  else if !pyIsAlnum (pyReplaceUnderscore entity) then
    .error (.invalidIdentifier
      ("Invalid " ++ pyLower type_ ++ " " ++ entity ++ "." ++ " " ++ type_ ++
        " must contain only numbers and letters."))
  else
    .ok ()

/-- The character class `[A-Za-z0-9_]` named by the specification's
identifier rule (spec-side definition, for comparison with the code). -/
def specAllowedChar (c : Char) : Bool :=
  asciiAlphaChar c || asciiDigitChar c || c = '_'

/-- The specification's regex `[A-Za-z_][A-Za-z0-9_]*` (spec-side
definition). -/
def matchesIdentRegex (s : String) : Bool :=
  match s.data with
  | [] => false
  | c :: rest =>
    (asciiAlphaChar c || c = '_') && rest.all (fun d => specAllowedChar d)

/-- A spreadsheet file written by `DataFrame.to_excel`: its path, its
column headers, and whether the pandas row index was included
(`to_excel(..., index=False)` sets it to `false`). -/
structure OutFile where
  path : String
  cols : List String
  wroteIndex : Bool
  deriving DecidableEq, Repr

/-- The observable state threaded through each operation:
* `folderExists` — whether the `Databases` storage folder exists;
* `dbs` — the `.db` files inside it, as `(file name, table names)`
  (file names are unique, as in a real directory);
* `outputs` — the spreadsheet files written so far;
* `log` — the lines printed to stdout. -/
structure St where
  folderExists : Bool
  dbs : List (String × List String)
  outputs : List OutFile
  log : List String
  deriving DecidableEq, Repr

/-- `build_db(db_name, current_path, db_folder)`: create the folder if
absent, then `sqlite3.connect` to `<name>.db` (creating an empty file when
none exists; an existing file is left as is). -/
def build_db (db_name : String) (st : St) : Except Err Unit × St :=
  let db_file := db_name ++ ".db"
  let st1 : St := { st with folderExists := true }
  let st2 : St :=
    if st1.dbs.any (fun p => p.1 == db_file) then st1
    else { st1 with dbs := st1.dbs ++ [(db_file, [])] }
  (.ok (), { st2 with
    log := st2.log ++
      ["Successfully created SQLite Database  '" ++ db_file ++ "'"] })

/-- `delete_db_path(db_name, db_folder)`: `os.remove` the `.db` file;
a `FileNotFoundError` (missing file or missing folder) is caught and
re-raised as the NotFound `Exception` naming the database. -/
def delete_db_path (db_name : String) (st : St) : Except Err Unit × St :=
  let db_file := db_name ++ ".db"
  if st.folderExists && st.dbs.any (fun p => p.1 == db_file) then
    (.ok (), { st with
      dbs := st.dbs.filter (fun p => !(p.1 == db_file)),
      log := st.log ++
        ["Successfully deleted SQLite Database  '" ++ db_file ++ "'"] })
  else
    (.error (.notFound ("There is no database with the name " ++ db_name ++
      ". Did you specify the correct name of the Database you want to delete?")), st)

/-- The `for col in data.columns: check_sqlite_entity_syntax(col, "Column")`
loop: fail on the first invalid column name. -/
def validateCols : List String → Except Err Unit
  | [] => .ok ()
  | c :: cs =>
    match check_sqlite_entity_syntax c "Column" with
    | .error e => .error e
    | .ok () => validateCols cs

/-- `import_file_to_db(import_file_args, db_folder)`.

`fileCols` is the oracle for the column headers pandas infers from the
source file (the one `read_csv`/`read_excel` call that runs, sheet or
not). The `.csv` branch mirrors the source exactly: it tests the
truthiness of `import_file_args[2]` — the table name — so it raises
whenever the table name is a nonempty string. -/
def import_file_to_db (import_file_args : List String)
    (fileCols : List String) (st : St) : Except Err Unit × St :=
  match import_file_args with
  | db_name :: data_path :: table_name :: _rest =>
    match check_sqlite_entity_syntax table_name "Table" with
    | .error e => (.error e, st)
    | .ok () =>
      let readRes : Except Err (List String) :=
        if pyTailSlice 3 data_path == "csv" then
          if !(table_name == "") then .error .invalidArgumentCombination
          else .ok fileCols
        else if pyTailSlice 4 data_path == "xlsx" then
          -- with `rest = [sheet]` the read passes `sheet_name = sheet`;
          -- either way `fileCols` is the resulting header row
          .ok fileCols
        else .error .unsupportedFormat
      match readRes with
      | .error e => (.error e, st)
      | .ok cols =>
        match validateCols cols with
        | .error e => (.error e, st)
        | .ok () =>
          let db_file := db_name ++ ".db"
          -- `os.listdir(db_folder)` raises when the folder is missing
          if !st.folderExists then (.error .fileNotFound, st)
          else if st.dbs.any (fun p => p.1 == db_file) then
            -- `to_sql(name=table, con=conn, if_exists="fail")`
            if st.dbs.any (fun p => p.1 == db_file && p.2.contains table_name) then
              (.error .tableExists, st)
            else
              (.ok (), { st with
                dbs := st.dbs.map (fun p =>
                  if p.1 == db_file then (p.1, p.2 ++ [table_name]) else p),
                log := st.log ++
                  ["Successfully imported file  '" ++ data_path ++ "' to '" ++
                    db_file ++ "'"] })
          else
            (.error (.notFound ("There is no database with the name " ++ db_name ++
              ". Did you create the database before importing the file?")), st)
  | _ => (.error .indexError, st)

/-- `get_query(user_query)`: a `.txt` suffix means read the file
(`txt` is the oracle mapping a path to its lines, `none` when the file is
missing); otherwise the argument is the literal query. -/
def get_query (user_query : String) (txt : String → Option (List String)) :
    Except Err String :=
  if pyTailSlice 4 user_query == ".txt" then
    match txt user_query with
    | none => .error .fileNotFound
    | some all_lines =>
      if all_lines.length = 0 then .error .emptyQuery
      else .ok (String.join all_lines)
  else .ok user_query

/-- The warning printed by `execute_query` for an unrecognized fifth
argument (transcribed from the source, typos included). -/
def fifthArgWarning (arg : String) : String :=
  "The fifth argument " ++ arg ++
    " is not understood, so know data was deleted. Can supply fourth positional argument \"clear\" to --execute_query to delete the Database after running a query"

/-- `execute_query(execute_query_args, db_folder)`.

`qres` is the oracle for `pd.read_sql_query`: the column headers of the
result frame for a given query text, or `Except.error` when pandas raises
`DatabaseError`. `sqlite3.connect` raises `OperationalError` only when
the `Databases` folder itself is missing; with the folder present it
silently creates an empty `.db` file when none exists. -/
def execute_query (execute_query_args : List String)
    (qres : String → Except Unit (List String))
    (txt : String → Option (List String)) (st : St) : Except Err Unit × St :=
  match execute_query_args with
  | q0 :: output_dir :: out_name :: db_name :: rest =>
    match get_query q0 txt with
    | .error e => (.error e, st)
    | .ok query =>
      let output_name := out_name ++ ".xlsx"
      let db_file := db_name ++ ".db"
      if !st.folderExists then
        (.error (.notFound ("There is no database with the name " ++ db_name ++
          ". Did you create the database before running the query?")), st)
      else
        let st1 : St :=
          if st.dbs.any (fun p => p.1 == db_file) then st
          else { st with dbs := st.dbs ++ [(db_file, [])] }
        let output_path := output_dir ++ "/" ++ output_name
        match qres query with
        | .error _ =>
          (.error (.queryError ("There is an error in the query. Did you import the table from an excel file into " ++
            db_name ++ "?")), st1)
        | .ok resultCols =>
          let cols2 :=
            if resultCols.contains "index" then
              resultCols.filter (fun c => !(c == "index"))
            else resultCols
          let st2 : St := { st1 with
            outputs := st1.outputs ++ [⟨output_path, cols2, false⟩],
            log := st1.log ++
              ["Query ran succesfully. Output found at " ++ output_path] }
          if rest.length = 1 then
            if rest.headD "" == "clear" then delete_db_path db_name st2
            else (.ok (), { st2 with
              log := st2.log ++ [fifthArgWarning (rest.headD "")] })
          else (.ok (), st2)
  | _ => (.error .indexError, st)

/-- The operations `main` can dispatch. -/
inductive Op where
  | buildDb
  | deleteDb
  | importFile
  | executeQuery
  | clearAllData
  | listDb
  | listTables
  deriving DecidableEq, Repr

/-- The `argparse.Namespace` handed to `main`: which flags were supplied
and with what values. `argparse` stores values by destination name, so
this record carries no trace of the order flags appeared on the command
line. -/
structure Args where
  build_db_name : Option String
  delete_db_name : Option String
  file_to_import_args : Option (List String)
  query_to_execute : Option (List String)
  clear_all_data : Bool
  list_all_db_name : Bool
  list_table_db_name : Option String
  deriving DecidableEq, Repr

/-- The fixed dispatch order encoded by `main`'s chain of `if`s. -/
def dispatchOrder : List Op :=
  [.buildDb, .deleteDb, .importFile, .executeQuery, .clearAllData,
   .listDb, .listTables]

/-- Whether the caller requested a given operation. -/
def requested (a : Args) : Op → Bool
  | .buildDb => a.build_db_name.isSome
  | .deleteDb => a.delete_db_name.isSome
  | .importFile => a.file_to_import_args.isSome
  | .executeQuery => a.query_to_execute.isSome
  | .clearAllData => a.clear_all_data
  | .listDb => a.list_all_db_name
  | .listTables => a.list_table_db_name.isSome

/-- The sequence of operations `main` performs, read off its chain of
`if args.… is not None` statements (lines 23-37 of the source). -/
def mainOps (a : Args) : List Op :=
  (if a.build_db_name.isSome then [Op.buildDb] else []) ++
  (if a.delete_db_name.isSome then [Op.deleteDb] else []) ++
  (if a.file_to_import_args.isSome then [Op.importFile] else []) ++
  (if a.query_to_execute.isSome then [Op.executeQuery] else []) ++
  (if a.clear_all_data then [Op.clearAllData] else []) ++
  (if a.list_all_db_name then [Op.listDb] else []) ++
  (if a.list_table_db_name.isSome then [Op.listTables] else [])

/-! ### Helper lemmas -/

theorem data_mk (l : List Char) : (String.mk l).data = l := rfl

/-! ### Claims -/

/-- C10: the identifier validator rejects the empty string: validating an
empty table or column name fails with an InvalidIdentifier error from the
"must contain only numbers and letters" branch, even though the empty
string is not composed of digits (`"".isdigit()` is false). -/
theorem c10_empty_identifier_rejected :
    check_sqlite_entity_syntax "" "Table" =
      .error (.invalidIdentifier
        "Invalid table . Table must contain only numbers and letters.") ∧
    check_sqlite_entity_syntax "" "Column" =
      .error (.invalidIdentifier
        "Invalid column . Column must contain only numbers and letters.") ∧
    pyIsDigit "" = false := by
  refine ⟨rfl, rfl, rfl⟩

/-- C1 (code bug): for a `.csv` source the code tests the truthiness of
`import_file_args[2]` — the table name — instead of the presence of a
fourth (sheet-name) argument. A CSV import with a valid table name and
**no** sheet-name argument is therefore rejected with the
"Cannot pass in a sheet name with a CSV file" `TypeError`, contradicting
the claim that such an import proceeds to read the file. -/
theorem c1_csv_rejected_without_sheet (fileCols : List String) (st : St) :
    import_file_to_db ["db", "f.csv", "t"] fileCols st =
      (.error .invalidArgumentCombination, st) := rfl

/-- C3 counterexample: `"café"` contains `é`, a character outside
`[A-Za-z0-9_]`, yet the validator accepts it — Python's `str.isalnum` is
Unicode-aware and counts `é` as alphanumeric, so the claim "validation
fails for every identifier containing a character outside `[A-Za-z0-9_]`"
is false as stated. -/
theorem c3_unicode_identifier_accepted :
    check_sqlite_entity_syntax "café" "Column" = .ok () ∧
    'é' ∈ "café".data ∧ specAllowedChar 'é' = false := by
  refine ⟨rfl, by decide, by decide⟩

/-- C5: `main` executes the requested operations in the fixed order
build → delete → import → execute → clear → list databases → list tables:
the operation list equals the canonical `dispatchOrder` filtered to the
requested operations, and is a function of the parsed flag record alone
(which carries no trace of command-line order). -/
theorem c5_dispatch_fixed_order (a : Args) :
    mainOps a = dispatchOrder.filter (requested a) := by
  rcases a with ⟨b, d, i, q, c, ld, lt⟩
  cases b <;> cases d <;> cases i <;> cases q <;> cases c <;> cases ld <;>
    cases lt <;> rfl

/-- C9: `delete_db_path` removes `<name>.db` from the storage directory
when the file exists, and otherwise fails with a NotFound error whose
message names the given database name. -/
theorem c9_delete_db (db_name : String) (st : St) :
    ((st.folderExists && st.dbs.any (fun p => p.1 == db_name ++ ".db")) = true →
      delete_db_path db_name st =
        (.ok (), { st with
          dbs := st.dbs.filter (fun p => !(p.1 == db_name ++ ".db")),
          log := st.log ++
            ["Successfully deleted SQLite Database  '" ++ (db_name ++ ".db") ++ "'"] })) ∧
    ((st.folderExists && st.dbs.any (fun p => p.1 == db_name ++ ".db")) = false →
      delete_db_path db_name st =
        (.error (.notFound ("There is no database with the name " ++ db_name ++
          ". Did you specify the correct name of the Database you want to delete?")), st)) := by
  constructor
  · intro h
    simp only [delete_db_path, h, if_true]
  · intro h
    simp only [delete_db_path, h, Bool.false_eq_true, if_false]

/-- C9 witness: deleting an existing database `db1` removes `db1.db`;
deleting the never-built `gone` fails with the NotFound message naming
`gone`. -/
theorem c9_delete_db_witness :
    delete_db_path "db1" ⟨true, [("db1.db", [])], [], []⟩ =
      (.ok (), ⟨true, [], [], ["Successfully deleted SQLite Database  'db1.db'"]⟩) ∧
    delete_db_path "gone" ⟨true, [], [], []⟩ =
      (.error (.notFound "There is no database with the name gone. Did you specify the correct name of the Database you want to delete?"),
       ⟨true, [], [], []⟩) := by
  constructor
  · exact ((c9_delete_db "db1" ⟨true, [("db1.db", [])], [], []⟩).1 rfl).trans rfl
  · exact ((c9_delete_db "gone" ⟨true, [], [], []⟩).2 rfl).trans rfl

/-- Errors of `import_file_to_db` that the spec calls validation
failures: a bad table or column name, an unsupported extension, or the
CSV/sheet-name combination. -/
def isValidationErr : Err → Bool
  | .invalidIdentifier _ => true
  | .unsupportedFormat => true
  | .invalidArgumentCombination => true
  | _ => false

/-- `import_file_to_db` only ever changes the state on its success path:
every `raise` site returns the incoming state untouched. -/
theorem import_file_ok_or_same_state (import_file_args : List String)
    (fileCols : List String) (st : St) :
    (import_file_to_db import_file_args fileCols st).1 = .ok () ∨
    (import_file_to_db import_file_args fileCols st).2 = st := by
  unfold import_file_to_db
  repeat' split
  all_goals try simp
  all_goals
    rcases hv : validateCols fileCols with e1 | u <;>
      (try simp only [hv]) <;> (repeat' split) <;> simp

/-- C8: when the import pipeline fails validation — the table name or an
inferred column name violates the identifier rule, the extension is
unsupported, or the CSV/sheet-name combination is rejected — no database
file is modified: the state after the failure equals the state before the
call. -/
theorem c8_no_write_on_validation_failure (import_file_args : List String)
    (fileCols : List String) (st st2 : St) (e : Err)
    (h : import_file_to_db import_file_args fileCols st = (.error e, st2))
    (_hval : isValidationErr e = true) :
    st2 = st := by
  rcases import_file_ok_or_same_state import_file_args fileCols st with h1 | h1
  · rw [h] at h1; cases h1
  · rw [h] at h1; exact h1

/-- C8 witness: importing with the all-digit table name `123` fails
identifier validation and leaves the concrete state unchanged. -/
theorem c8_no_write_on_validation_failure_witness :
    import_file_to_db ["db", "x.csv", "123"] [] ⟨true, [("db.db", [])], [], []⟩ =
      (.error (.invalidIdentifier
        "Invalid table 123. Table name cannot lead with a digit"),
       ⟨true, [("db.db", [])], [], []⟩) ∧
    (⟨true, [("db.db", [])], [], []⟩ : St) = ⟨true, [("db.db", [])], [], []⟩ := by
  refine ⟨rfl, ?_⟩
  exact c8_no_write_on_validation_failure ["db", "x.csv", "123"] []
    ⟨true, [("db.db", [])], [], []⟩ ⟨true, [("db.db", [])], [], []⟩
    (.invalidIdentifier "Invalid table 123. Table name cannot lead with a digit")
    rfl rfl

/-- C2 (code bug): `sqlite3.connect` does not fail on a missing database
file — it only raises `OperationalError` when the storage folder itself
is missing. With the folder present and the named database absent, the
connection succeeds (creating an empty `<name>.db`), and when the query
then fails it is reported as a QueryError, not the claimed NotFound; the
claimed "fails with NotFound before any query is run" does not hold. -/
theorem c2_missing_db_reaches_query (qres : String → Except Unit (List String))
    (txt : String → Option (List String)) (st : St)
    (h1 : st.folderExists = true)
    (h2 : st.dbs.any (fun p => p.1 == "mydb.db") = false)
    (h3 : qres "SELECT * FROM t" = .error ()) :
    execute_query ["SELECT * FROM t", "/tmp", "out", "mydb"] qres txt st =
      (.error (.queryError
        "There is an error in the query. Did you import the table from an excel file into mydb?"),
       { st with dbs := st.dbs ++ [("mydb.db", [])] }) := by
  have hq : get_query "SELECT * FROM t" txt = .ok "SELECT * FROM t" := rfl
  have hs : ("mydb" ++ ".db" : String) = "mydb.db" := rfl
  simp only [execute_query, hq, h1, hs, h2, h3, Bool.not_true,
    Bool.false_eq_true, if_false]
  rfl

/-- C2 witness: on the empty storage folder, querying the nonexistent
database `mydb` with a failing query produces QueryError and leaves an
empty `mydb.db` behind. -/
theorem c2_missing_db_reaches_query_witness :
    execute_query ["SELECT * FROM t", "/tmp", "out", "mydb"]
      (fun _ => .error ()) (fun _ => none) ⟨true, [], [], []⟩ =
      (.error (.queryError
        "There is an error in the query. Did you import the table from an excel file into mydb?"),
       ⟨true, [("mydb.db", [])], [], []⟩) := by
  exact (c2_missing_db_reaches_query (fun _ => .error ()) (fun _ => none)
    ⟨true, [], [], []⟩ rfl rfl rfl).trans rfl

/-- C4: when the storage directory exists but the named database file
does not, `execute_query` creates an empty `<name>.db` as a side effect
of opening the connection — whatever the query outcome, the directory is
not left unchanged. -/
theorem c4_connect_creates_db_file (q dir out_name db_name : String)
    (qres : String → Except Unit (List String))
    (txt : String → Option (List String)) (st : St)
    (h1 : st.folderExists = true)
    (h2 : st.dbs.any (fun p => p.1 == db_name ++ ".db") = false)
    (h3 : (pyTailSlice 4 q == ".txt") = false) :
    (execute_query [q, dir, out_name, db_name] qres txt st).2.dbs =
      st.dbs ++ [(db_name ++ ".db", [])] ∧
    (execute_query [q, dir, out_name, db_name] qres txt st).2 ≠ st := by
  have hq : get_query q txt = .ok q := by
    simp only [get_query, h3, Bool.false_eq_true, if_false]
  have hdbs : (execute_query [q, dir, out_name, db_name] qres txt st).2.dbs =
      st.dbs ++ [(db_name ++ ".db", [])] := by
    simp only [execute_query, hq, h1, h2, Bool.not_true, Bool.false_eq_true,
      if_false]
    rcases hr : qres q with e | resultCols
    · rfl
    · simp only [List.length_nil, if_false]
      rfl
  refine ⟨hdbs, fun heq => ?_⟩
  have : st.dbs = st.dbs ++ [(db_name ++ ".db", [])] := by
    conv_lhs => rw [← heq]
    exact hdbs
  have hlen := congrArg List.length this
  simp at hlen

/-- C4 witness: querying the nonexistent `fresh` database on an empty
storage folder leaves `fresh.db` behind. -/
theorem c4_connect_creates_db_file_witness :
    (execute_query ["SELECT 1", "/tmp", "out", "fresh"]
      (fun _ => .ok ["1"]) (fun _ => none) ⟨true, [], [], []⟩).2.dbs =
      [("fresh.db", [])] ∧
    (execute_query ["SELECT 1", "/tmp", "out", "fresh"]
      (fun _ => .ok ["1"]) (fun _ => none) ⟨true, [], [], []⟩).2 ≠
      (⟨true, [], [], []⟩ : St) := by
  have h := c4_connect_creates_db_file "SELECT 1" "/tmp" "out" "fresh"
    (fun _ => .ok ["1"]) (fun _ => none) ⟨true, [], [], []⟩ rfl rfl rfl
  exact ⟨h.1.trans rfl, h.2⟩

theorem any_append_self (l : List (String × List String)) (f : String)
    (ts : List String) :
    ((l ++ [(f, ts)]).any fun p => p.1 == f) = true := by
  simp

theorem any_filter_not_beq (l : List (String × List String)) (f : String) :
    ((l.filter fun p => !(p.1 == f)).any fun p => p.1 == f) = false := by
  induction l with
  | nil => rfl
  | cons a l ih =>
    rcases hb : (a.1 == f) with _ | _ <;>
      simp_all [List.filter_cons]

/-- C6: after a successful export, a fifth argument equal to `"clear"`
makes `execute_query` delete the target database file; any other fifth
value leaves the database file in place, appends the "is not understood"
warning to the output, and still returns success. -/
theorem c6_fifth_argument_clear (q dir out_name db_name fifth : String)
    (qres : String → Except Unit (List String))
    (txt : String → Option (List String)) (st : St) (resultCols : List String)
    (h1 : st.folderExists = true)
    (h2 : (pyTailSlice 4 q == ".txt") = false)
    (h3 : qres q = .ok resultCols) :
    ((fifth = "clear" →
      (execute_query [q, dir, out_name, db_name, fifth] qres txt st).1 = .ok () ∧
      ((execute_query [q, dir, out_name, db_name, fifth] qres txt st).2.dbs.any
        fun p => p.1 == db_name ++ ".db") = false) ∧
     (fifth ≠ "clear" →
      (execute_query [q, dir, out_name, db_name, fifth] qres txt st).1 = .ok () ∧
      ((execute_query [q, dir, out_name, db_name, fifth] qres txt st).2.dbs.any
        fun p => p.1 == db_name ++ ".db") = true ∧
      fifthArgWarning fifth ∈
        (execute_query [q, dir, out_name, db_name, fifth] qres txt st).2.log)) := by
  have hq : get_query q txt = .ok q := by
    simp only [get_query, h2, Bool.false_eq_true, if_false]
  simp only [execute_query, hq, h1, h3, Bool.not_true, Bool.false_eq_true,
    if_false, List.length_cons, List.length_nil, List.headD_cons]
  constructor
  · intro hc
    subst hc
    rcases ha : (st.dbs.any fun p => p.1 == db_name ++ ".db") with _ | _ <;>
      simp [ha, delete_db_path, h1, any_append_self, any_filter_not_beq]
  · intro hc
    have hb : (fifth == "clear") = false := by
      simpa using hc
    rcases ha : (st.dbs.any fun p => p.1 == db_name ++ ".db") with _ | _ <;>
      simp [ha, hb, any_append_self]

/-- C6 witness: with database `mydb` present, fifth argument `"clear"`
removes `mydb.db`; fifth argument `"oops"` keeps it and logs the
warning. -/
theorem c6_fifth_argument_clear_witness :
    ((execute_query ["SELECT 1", "/tmp", "out", "mydb", "clear"]
        (fun _ => .ok ["a"]) (fun _ => none)
        ⟨true, [("mydb.db", ["t"])], [], []⟩).1 = .ok () ∧
      ((execute_query ["SELECT 1", "/tmp", "out", "mydb", "clear"]
        (fun _ => .ok ["a"]) (fun _ => none)
        ⟨true, [("mydb.db", ["t"])], [], []⟩).2.dbs.any
          fun p => p.1 == "mydb" ++ ".db") = false) ∧
    ((execute_query ["SELECT 1", "/tmp", "out", "mydb", "oops"]
        (fun _ => .ok ["a"]) (fun _ => none)
        ⟨true, [("mydb.db", ["t"])], [], []⟩).1 = .ok () ∧
      ((execute_query ["SELECT 1", "/tmp", "out", "mydb", "oops"]
        (fun _ => .ok ["a"]) (fun _ => none)
        ⟨true, [("mydb.db", ["t"])], [], []⟩).2.dbs.any
          fun p => p.1 == "mydb" ++ ".db") = true ∧
      fifthArgWarning "oops" ∈
        (execute_query ["SELECT 1", "/tmp", "out", "mydb", "oops"]
          (fun _ => .ok ["a"]) (fun _ => none)
          ⟨true, [("mydb.db", ["t"])], [], []⟩).2.log) := by
  constructor
  · exact (c6_fifth_argument_clear "SELECT 1" "/tmp" "out" "mydb" "clear"
      (fun _ => .ok ["a"]) (fun _ => none) ⟨true, [("mydb.db", ["t"])], [], []⟩
      ["a"] rfl rfl rfl).1 rfl
  · exact (c6_fifth_argument_clear "SELECT 1" "/tmp" "out" "mydb" "oops"
      (fun _ => .ok ["a"]) (fun _ => none) ⟨true, [("mydb.db", ["t"])], [], []⟩
      ["a"] rfl rfl rfl).2 (by decide)

theorem bool_or3_false {a b c : Bool} (h : (a || b || c) = false) :
    a = false ∧ b = false ∧ c = false := by
  cases a <;> cases b <;> cases c <;> simp_all

theorem pyIsAlnumChar_false_of (c : Char) (h1 : asciiAlphaChar c = false)
    (h2 : asciiDigitChar c = false) (hlt : c.toNat < 128) :
    pyIsAlnumChar c = false := by
  unfold pyIsAlnumChar latin1AlnumExtra
  rw [h1, h2]
  simp only [Bool.false_or, Bool.or_eq_false_iff, Bool.and_eq_false_iff,
    decide_eq_false_iff_not, not_le]
  omega

theorem pyIsDigitChar_false_of_regex_head (c : Char)
    (h : (asciiAlphaChar c || c = '_') = true) : pyIsDigitChar c = false := by
  unfold pyIsDigitChar latin1DigitExtra asciiDigitChar
  rcases Bool.or_eq_true_iff.mp h with h1 | h1
  · unfold asciiAlphaChar at h1
    simp only [Bool.or_eq_true_iff, Bool.and_eq_true_iff, decide_eq_true_eq] at h1
    simp only [Bool.or_eq_false_iff, Bool.and_eq_false_iff,
      decide_eq_false_iff_not, not_le]
    omega
  · have : c = '_' := by simpa using h1
    subst this
    decide

theorem pyIsAlnumChar_true_of_allowed (c : Char)
    (h : specAllowedChar c = true) (hne : ¬ c = '_') :
    pyIsAlnumChar c = true := by
  unfold specAllowedChar at h
  rcases Bool.or_eq_true_iff.mp h with h1 | h1
  · unfold pyIsAlnumChar
    rw [Bool.or_eq_true_iff, Bool.or_eq_true_iff]
    left
    exact Bool.or_eq_true_iff.mp h1 |>.elim (fun a => Or.inl a) (fun a => Or.inr a)
  · exact absurd (by simpa using h1) hne

def failsInvalidIdentifier : Except Err Unit → Bool
  | .error (.invalidIdentifier _) => true
  | _ => false

theorem c3aux_digits (s t : String) (h : ∀ c ∈ s.data, asciiDigitChar c = true) :
    failsInvalidIdentifier ( check_sqlite_entity_syntax s t) = true := by
  rcases hd : s.data with _ | ⟨c, rest⟩
  · have h0 : pyIsDigit s = false := by simp [pyIsDigit, hd]
    have h1 : pyIsAlnum (pyReplaceUnderscore s) = false := by
      simp [pyIsAlnum, pyReplaceUnderscore, hd]
    simp [failsInvalidIdentifier, check_sqlite_entity_syntax, h0, h1]
  · have hall : s.data.all pyIsDigitChar = true := by
      rw [List.all_eq_true]
      intro a ha
      have h2 := h a ha
      simp [pyIsDigitChar, h2]
    have h0 : pyIsDigit s = true := by
      unfold pyIsDigit
      rw [hall, hd]
      rfl
    simp [failsInvalidIdentifier, check_sqlite_entity_syntax, h0]

theorem c3aux_bad_char (s t : String) (hascii : ∀ c ∈ s.data, c.toNat < 128)
    (hex : ∃ c ∈ s.data, specAllowedChar c = false) :
    failsInvalidIdentifier ( check_sqlite_entity_syntax s t) = true := by
  obtain ⟨c, hc, hbad⟩ := hex
  rcases h0 : pyIsDigit s with _ | _
  · have hb2 : (asciiAlphaChar c = false ∧ asciiDigitChar c = false) ∧ ¬c = '_' := by
      simpa [specAllowedChar] using hbad
    have hne : ¬ c = '_' := hb2.2
    have hch : pyIsAlnumChar c = false :=
      pyIsAlnumChar_false_of c hb2.1.1 hb2.1.2 (hascii c hc)
    have h1 : pyIsAlnum (pyReplaceUnderscore s) = false := by
      have hmem : c ∈ (pyReplaceUnderscore s).data := by
        rw [pyReplaceUnderscore, data_mk]
        have hfix : (if c = '_' then 'A' else c) = c := by simp [hne]
        rw [← hfix]
        exact List.mem_map_of_mem _ hc
      have hnotall : (pyReplaceUnderscore s).data.all pyIsAlnumChar = false := by
        rcases hv : (pyReplaceUnderscore s).data.all pyIsAlnumChar with _ | _
        · rfl
        · have := List.all_eq_true.mp hv c hmem
          rw [hch] at this
          cases this
      simp [pyIsAlnum, hnotall]
    simp [failsInvalidIdentifier, check_sqlite_entity_syntax, h0, h1]
  · simp [failsInvalidIdentifier, check_sqlite_entity_syntax, h0]

theorem c3aux_regex (s t : String) (h : matchesIdentRegex s = true) :
    check_sqlite_entity_syntax s t = .ok () := by
  unfold matchesIdentRegex at h
  rcases hd : s.data with _ | ⟨c, rest⟩
  · rw [hd] at h; cases h
  · rw [hd] at h
    rw [Bool.and_eq_true_iff] at h
    obtain ⟨h1, h2⟩ := h
    have h0 : pyIsDigit s = false := by
      have hcd : pyIsDigitChar c = false := pyIsDigitChar_false_of_regex_head c h1
      simp [pyIsDigit, hd, hcd]
    have hmap : ((c :: rest).map (fun c => if c = '_' then 'A' else c)).all pyIsAlnumChar = true := by
      rw [List.all_eq_true]
      intro a ha
      rw [List.mem_map] at ha
      obtain ⟨b, hb, hba⟩ := ha
      by_cases hbu : b = '_'
      · rw [← hba, hbu]
        decide
      · have hall : specAllowedChar b = true := by
          rcases List.mem_cons.mp hb with hb1 | hb1
          · subst hb1
            rcases Bool.or_eq_true_iff.mp h1 with hx | hx
            · simp [specAllowedChar, hx]
            · exact absurd (by simpa using hx) hbu
          · exact List.all_eq_true.mp h2 b hb1
        rw [← hba]
        simp only [hbu, if_false]
        exact pyIsAlnumChar_true_of_allowed b hall hbu
    have halnum : pyIsAlnum (pyReplaceUnderscore s) = true := by
      rw [pyIsAlnum, pyReplaceUnderscore, data_mk, hd, hmap]
      rfl
    simp [ check_sqlite_entity_syntax, h0, halnum]

/-- C3 (amended): the identifier validator fails with InvalidIdentifier
for every identifier consisting only of (ASCII) digits and for every
identifier of ASCII characters containing a character outside
`[A-Za-z0-9_]`, and succeeds for every identifier matching
`[A-Za-z_][A-Za-z0-9_]*`. (The ASCII restriction on the second part is
forced by the counterexample: Python's Unicode-aware `str.isalnum` lets
non-ASCII letters such as `é` through.) -/
theorem c3_identifier_rule :
    (∀ s t : String, (∀ c ∈ s.data, asciiDigitChar c = true) →
      failsInvalidIdentifier ( check_sqlite_entity_syntax s t) = true) ∧
    (∀ s t : String, (∀ c ∈ s.data, c.toNat < 128) →
      (∃ c ∈ s.data, specAllowedChar c = false) →
      failsInvalidIdentifier ( check_sqlite_entity_syntax s t) = true) ∧
    (∀ s t : String, matchesIdentRegex s = true →
      check_sqlite_entity_syntax s t = .ok ()) :=
  ⟨c3aux_digits, c3aux_bad_char, c3aux_regex⟩

/-- C3 witness: `731` (all digits) and `a-b` (contains `-`) are rejected
with InvalidIdentifier; `my_table1` matches the regex and is accepted. -/
theorem c3_identifier_rule_witness :
    failsInvalidIdentifier ( check_sqlite_entity_syntax "731" "Table") = true ∧
    failsInvalidIdentifier ( check_sqlite_entity_syntax "a-b" "Column") = true ∧
    check_sqlite_entity_syntax "my_table1" "Table" = .ok () := by
  refine ⟨?_, ?_, ?_⟩
  · exact c3_identifier_rule.1 "731" "Table" (by decide)
  · exact c3_identifier_rule.2.1 "a-b" "Column" (by decide)
      ⟨'-', by decide, by decide⟩
  · exact c3_identifier_rule.2.2 "my_table1" "Table" (by decide)

theorem delete_db_path_outputs (db_name : String) (st : St) :
    (delete_db_path db_name st).2.outputs = st.outputs := by
  rcases h : (st.folderExists && st.dbs.any fun p => p.1 == db_name ++ ".db")
    with _ | _ <;> simp [delete_db_path, h]

theorem not_mem_filter_not_beq (l : List String) :
    "index" ∉ l.filter (fun c => !(c == "index")) := by
  intro hm
  have h := List.mem_filter.mp hm
  simp at h

/-- C7: every spreadsheet written by `execute_query` — whatever the
arguments, state and query result — has no column named `index` (any such
column is dropped first) and is written with `index=False`, so no
row-index column is added: the output list is either unchanged or grows
by exactly one file with those properties. -/
theorem c7_no_index_column (execute_query_args : List String)
    (qres : String → Except Unit (List String))
    (txt : String → Option (List String)) (st : St) :
    (execute_query execute_query_args qres txt st).2.outputs = st.outputs ∨
    ∃ path cols,
      (execute_query execute_query_args qres txt st).2.outputs =
        st.outputs ++ [⟨path, cols, false⟩] ∧ "index" ∉ cols := by
  rcases execute_query_args with _ | ⟨q0, _ | ⟨output_dir, _ | ⟨out_name, _ | ⟨db_name, rest⟩⟩⟩⟩
  · left; rfl
  · left; rfl
  · left; rfl
  · left; rfl
  rcases hg : get_query q0 txt with e | query
  · left
    simp [execute_query, hg]
  rcases hf : st.folderExists with _ | _
  · left
    simp [execute_query, hg, hf]
  have houts1 :
      (if (st.dbs.any fun p => p.1 == db_name ++ ".db") = true then st
        else { folderExists := true, dbs := st.dbs ++ [(db_name ++ ".db", [])],
               outputs := st.outputs, log := st.log }).outputs =
      st.outputs := by
    split <;> rfl
  rcases hr : qres query with e | resultCols
  · left
    simp only [execute_query, hg, hf, hr, Bool.not_true, Bool.false_eq_true,
      if_false]
    exact houts1
  · right
    have hnomem : "index" ∉
        (if resultCols.contains "index" then
          resultCols.filter (fun c => !(c == "index"))
        else resultCols) := by
      split
      · exact not_mem_filter_not_beq resultCols
      · next hc =>
          intro hm
          exact hc (List.elem_eq_true_of_mem hm)
    refine ⟨output_dir ++ "/" ++ (out_name ++ ".xlsx"), _, ?_, hnomem⟩
    simp only [execute_query, hg, hf, hr, Bool.not_true, Bool.false_eq_true,
      if_false]
    rcases rest with _ | ⟨fifth, rest2⟩
    · simp [houts1]
    · rcases rest2 with _ | ⟨x, rest3⟩
      · simp only [List.length_cons, List.length_nil, List.headD_cons]
        split
        · split
          · rw [delete_db_path_outputs]
            simp [houts1]
          · simp [houts1]
        · simp [houts1]
      · simp only [List.length_cons]
        simp [houts1]

end SqlOnExcel
